import Mathlib

/-!
Verification development for the airpnp bridge control plane
(`airpnp/bridge.py` and `airpnp/airplayserver.py`).

The Device Session state machine (`AVControlPoint`), the request-gating
resource (`BaseResource.render`) and the orchestrator port pool
(`BridgeServer._find_port` / `on_device_found` / `on_device_removed`)
are embedded shallowly: session state is an explicit structure, remote
SOAP actions are recorded in a call trace, the remote device is an
oracle supplying position info / transport state / per-attempt Stop
outcomes, and Python exceptions are an `Except` error channel.
Times and positions (seconds) are modelled as rationals.
-/

namespace Airpnp

/-- Identity of a caller (AirPlay) client, as Twisted presents it:
a network address with a host and further components (here: the port).
the setter of `AVControlPoint.client` compares only `host`. -/
structure Client where
  host : String
  port : Nat
deriving DecidableEq, Repr

/-- Python exceptions relevant to the embedded code:
`ValueError` (busy rejection in the `client` setter),
`CommandError` carrying a SOAP fault code (remote action fault), and
`TypeError` (`None` used where a float is required). -/
inductive PyErr where
  | valueError (msg : String)
  | commandError (code : String)
  | typeError
deriving DecidableEq, Repr

/-- Remote calls issued by a session: UPnP AVTransport actions plus the
photo web server publish and unpublish.  Each carries the `InstanceID`
argument the Python code passes (`self._instance_id`). -/
inductive RemoteCall where
  | getPositionInfo (iid : Option String)
  | getTransportInfo (iid : Option String)
  | seek (iid : Option String) (target : ℚ)
  | setAVTransportURI (iid : Option String) (uri : String)
  | play (iid : Option String) (speed : String)
  | pause (iid : Option String)
  | stop (iid : Option String)
  | unpublish (name : String)
deriving DecidableEq, Repr

/-- Outcome of one attempt of the remote `Stop` action:
success, or a SOAP fault with the given fault code. -/
inductive StopOutcome where
  | ok
  | fault (code : String)
deriving DecidableEq, Repr

/-- Oracle for the remote device during one operation: the position info
`GetPositionInfo` reports (already converted from h:m:s to seconds, as
`hms_to_sec` does), the `CurrentTransportState` that `GetTransportInfo`
reports, and the outcome of the n-th `Stop` attempt (0-based). -/
structure Device where
  trackDuration : ℚ
  relTime : ℚ
  transportState : String
  stopOutcome : Nat → StopOutcome

/-- Mutable state of `AVControlPoint`: the fields `_uri`, `_pre_scrub`,
`_position_pct`, `_client`, `_instance_id`, `_photo`, all of which the
Python class initialises to `None`. -/
structure AVState where
  uri : Option String
  pre_scrub : Option ℚ
  position_pct : Option ℚ
  client : Option Client
  instance_id : Option String
  photo : Option String
deriving DecidableEq, Repr

/-- Initial session state: every field is `None` (the class attribute
defaults of `AVControlPoint`). -/
def initState : AVState :=
  { uri := none, pre_scrub := none, position_pct := none,
    client := none, instance_id := none, photo := none }

/-- `AVControlPoint._allocate_instance_id`: always returns the literal
"0" (a `PrepareForConnection` negotiation is only logged as
unimplemented). -/
def allocate_instance_id : String := "0"

/-- The `client` property setter of `AVControlPoint`: rejects with
`ValueError("Device is busy")` when the `host` of a new non-empty
client differs from the `host` of the bound client; on unbind (`None`) it calls
`_release_instance_id`, which only logs and does not clear
`_instance_id`; on (re)bind it stores the client and allocates the
instance id "0". -/
def set_client (s : AVState) (value : Option Client) : Except PyErr AVState :=
  match value, s.client with
  | some c, some c0 =>
      if c.host ≠ c0.host then
        .error (.valueError "Device is busy")
      else
        .ok { s with client := some c, instance_id := some allocate_instance_id }
  | some c, none =>
      .ok { s with client := some c, instance_id := some allocate_instance_id }
  | none, _ =>
      -- _release_instance_id(self._instance_id): logging only
      .ok { s with client := none }

/-- `AVControlPoint.set_scrub`: with media loaded it issues a
`Seek(REL_TIME)` to the given position; with no media it stores the
position in `_pre_scrub` for later replay and contacts no device. -/
def set_scrub (s : AVState) (position : ℚ) : AVState × List RemoteCall :=
  match s.uri with
  | some _ => (s, [RemoteCall.seek s.instance_id position])
  | none => ({ s with pre_scrub := some position }, [])

/-- `AVControlPoint._try_seek_pct`: when `duration > 0`, reads
`self._position_pct` (formatting it with `%f` and multiplying it by
`duration` — a `TypeError` if it is `None`), clears it, and seeks to
`duration * pct` only when that target is strictly greater than the
observed position.  When `duration ≤ 0` it does nothing. -/
def try_seek_pct (s : AVState) (duration position : ℚ) :
    Except PyErr (AVState × List RemoteCall) :=
  if 0 < duration then
    match s.position_pct with
    | none => .error .typeError
    | some pct =>
        let targetoffset := duration * pct
        let s1 := { s with position_pct := none }
        if position < targetoffset then
          .ok (set_scrub s1 targetoffset)
        else
          .ok (s1, [])
  else
    .ok (s, [])

/-- `AVControlPoint.get_scrub`: issues `GetPositionInfo` first,
unconditionally; then, if media is loaded, reads duration/position from
the reply, resolves a pending percentage via `_try_seek_pct` when one
exists, and returns `(duration, position)`; with no media it returns
`(0.0, 0.0)` (after the `GetPositionInfo` call already made). -/
def get_scrub (d : Device) (s : AVState) :
    Except PyErr ((ℚ × ℚ) × AVState × List RemoteCall) :=
  let calls0 := [RemoteCall.getPositionInfo s.instance_id]
  match s.uri with
  | some _ =>
      let duration := d.trackDuration
      let position := d.relTime
      match s.position_pct with
      | some _ =>
          match try_seek_pct s duration position with
          | .error e => .error e
          | .ok (s1, cs1) => .ok ((duration, position), s1, calls0 ++ cs1)
      | none => .ok ((duration, position), s, calls0)
  | none => .ok ((0, 0), s, calls0)

/-- `AVControlPoint.play`: issues `SetAVTransportURI`, records the URI
in `_uri`, issues `Play` at speed 1; then, if a `_pre_scrub` exists,
replays it via `set_scrub` (now a real `Seek`, as the URI is set) and
clears it; otherwise stores the start position fraction in
`_position_pct`. -/
def play (s : AVState) (location : String) (position : ℚ) :
    AVState × List RemoteCall :=
  let calls0 := [RemoteCall.setAVTransportURI s.instance_id location]
  let s1 := { s with uri := some location }
  let calls1 := calls0 ++ [RemoteCall.play s1.instance_id "1"]
  match s1.pre_scrub with
  | some pre =>
      let r := set_scrub s1 pre
      ({ r.1 with pre_scrub := none }, calls1 ++ r.2)
  | none =>
      ({ s1 with position_pct := some position }, calls1)

/-- `AVControlPoint._try_stop`: issues `Stop`; on a `CommandError` whose
SOAP fault code is "718" it retries while `retries` is non-zero
(decrementing), returning `False` once exhausted; any other fault code
is re-raised.  `beh n` is the outcome of the n-th attempt; the returned
list is the trace of `Stop` calls on the non-raising paths. -/
def try_stop (beh : Nat → StopOutcome) (iid : Option String) :
    Nat → Nat → Except PyErr (Bool × List RemoteCall)
  | attempt, 0 =>
      match beh attempt with
      | .ok => .ok (true, [RemoteCall.stop iid])
      | .fault code =>
          if code = "718" then .ok (false, [RemoteCall.stop iid])
          else .error (.commandError code)
  | attempt, retries + 1 =>
      match beh attempt with
      | .ok => .ok (true, [RemoteCall.stop iid])
      | .fault code =>
          if code = "718" then
            match try_stop beh iid (attempt + 1) retries with
            | .ok (b, cs) => .ok (b, RemoteCall.stop iid :: cs)
            | .error e => .error e
          else .error (.commandError code)

/-- `AVControlPoint.stop`: no-op when no media is loaded.  Otherwise
calls `_try_stop(1)`; a re-raised (non-718) fault propagates out before
any cleanup; on a `True`/`False` return it clears `_uri`, unpublishes a
published photo and clears `_photo`, and unbinds via `self.client =
None`. -/
def stop (d : Device) (s : AVState) : Except PyErr (AVState × List RemoteCall) :=
  match s.uri with
  | none => .ok (s, [])
  | some _ =>
      match try_stop d.stopOutcome s.instance_id 0 1 with
      | .error e => .error e
      | .ok (_stopped, cs) =>
          let s1 := { s with uri := none }
          let r2 :=
            match s1.photo with
            | some name => ({ s1 with photo := none }, [RemoteCall.unpublish name])
            | none => (s1, ([] : List RemoteCall))
          match set_client r2.1 none with
          | .ok s3 => .ok (s3, cs ++ r2.2)
          | .error e => .error e

/-- The Python `int(float(x))` on a rational: truncation toward zero. -/
def pytrunc (q : ℚ) : ℤ := if q < 0 then ⌈q⌉ else ⌊q⌋

/-- `AVControlPoint.rate`: no-op with no media.  With media, a speed
whose integer truncation is ≥ 1 queries the transport state, issues
`Play` at speed 1 unless already `PLAYING`/`TRANSITIONING`, and — when
a `_position_pct` exists — calls `get_scrub()` (which itself resolves
the percentage) and then `_try_seek_pct` again on its result.  A speed
below 1 issues `Pause`. -/
def rate (d : Device) (s : AVState) (speed : ℚ) :
    Except PyErr (AVState × List RemoteCall) :=
  match s.uri with
  | none => .ok (s, [])
  | some _ =>
      if 1 ≤ pytrunc speed then
        let state := d.transportState
        let calls0 := [RemoteCall.getTransportInfo s.instance_id]
        let calls1 :=
          if state ≠ "PLAYING" ∧ state ≠ "TRANSITIONING" then
            calls0 ++ [RemoteCall.play s.instance_id "1"]
          else calls0
        match s.position_pct with
        | none => .ok (s, calls1)
        | some _ =>
            match get_scrub d s with
            | .error e => .error e
            | .ok (dp, s1, cs1) =>
                match try_seek_pct s1 dp.1 dp.2 with
                | .error e => .error e
                | .ok (s2, cs2) => .ok (s2, calls1 ++ cs1 ++ cs2)
      else
        .ok (s, [RemoteCall.pause s.instance_id])

/-- `BaseResource.render` (airplayserver.py): before dispatching, binds
the client of the request; any exception there yields a 503 response with an
empty body and the dispatch is not invoked; an exception during
dispatch yields 501; otherwise the dispatch result is returned
(success response code 200 here). -/
def render (s : AVState) (reqClient : Client)
    (dispatch : AVState → Except PyErr (AVState × String)) :
    AVState × Nat × String :=
  match set_client s (some reqClient) with
  | .error _ => (s, 503, "")
  | .ok s1 =>
      match dispatch s1 with
      | .error _ => (s1, 501, "")
      | .ok (s2, body) => (s2, 200, body)

/-! Orchestrator: the `BridgeServer` port pool (`_ports`, `_find_port`)
and the device-found / device-removed event handlers, modelled on the
state they keep: the pool of allocated ports and the live
(device-UDN, port) sessions. -/

/-- Helper for `find_port_loop`: weakening the threshold of the counted
predicate cannot increase the count. -/
theorem countP_ge_succ_le (ports : List Nat) (port : Nat) :
    ports.countP (fun x => decide (port + 1 ≤ x)) ≤
      ports.countP (fun x => decide (port ≤ x)) := by
  induction ports with
  | nil => simp
  | cons a l ih =>
      simp only [List.countP_cons]
      by_cases h1 : port + 1 ≤ a
      · have h2 : port ≤ a := Nat.le_of_succ_le h1
        simp only [h1, h2]
        simpa using ih
      · by_cases h2 : port ≤ a <;> simp [h1, h2] <;> omega

/-- Helper for `find_port_loop`: when `port` itself is in the pool, the
count of pool entries `≥ port + 1` is strictly below the count of
entries `≥ port`; this is the termination measure of the probing loop. -/
theorem countP_ge_succ_lt {port : Nat} {ports : List Nat} (hmem : port ∈ ports) :
    ports.countP (fun x => decide (port + 1 ≤ x)) <
      ports.countP (fun x => decide (port ≤ x)) := by
  induction ports with
  | nil => cases hmem
  | cons a l ih =>
      simp only [List.countP_cons]
      rcases List.mem_cons.mp hmem with rfl | h
      · have h1 : ¬ (port + 1 ≤ port) := by omega
        have h2 : port ≤ port := Nat.le_refl port
        have h3 := countP_ge_succ_le l port
        simp [h1, h2]
        omega
      · have h3 := ih h
        have h4 : (if decide (port + 1 ≤ a) = true then 1 else 0) ≤
            (if decide (port ≤ a) = true then 1 else 0) := by
          by_cases h1 : port + 1 ≤ a
          · simp [h1, Nat.le_of_succ_le h1]
          · simp [h1]
        omega

/-- The `while port in self._ports: port += 1` loop of
`BridgeServer._find_port`, probing upward from `port`. -/
def find_port_loop (ports : List Nat) (port : Nat) : Nat :=
  if h : port ∈ ports then find_port_loop ports (port + 1) else port
termination_by ports.countP (fun x => decide (port ≤ x))
decreasing_by exact countP_ge_succ_lt h

/-- `BridgeServer._find_port` without the `append`: the port value the
search returns, starting at the fixed base 22555. -/
def find_port (ports : List Nat) : Nat := find_port_loop ports 22555

theorem find_port_loop_ge (ports : List Nat) (port : Nat) :
    port ≤ find_port_loop ports port := by
  induction port using find_port_loop.induct ports with
  | case1 port hmem ih =>
      rw [find_port_loop, dif_pos hmem]
      omega
  | case2 port hmem =>
      rw [find_port_loop, dif_neg hmem]

theorem find_port_loop_not_mem (ports : List Nat) (port : Nat) :
    find_port_loop ports port ∉ ports := by
  induction port using find_port_loop.induct ports with
  | case1 port hmem ih => rwa [find_port_loop, dif_pos hmem]
  | case2 port hmem => rwa [find_port_loop, dif_neg hmem]

theorem find_port_loop_le (ports : List Nat) (port : Nat) :
    ∀ q, port ≤ q → q ∉ ports → find_port_loop ports port ≤ q := by
  induction port using find_port_loop.induct ports with
  | case1 port hmem ih =>
      intro q hq hqn
      rw [find_port_loop, dif_pos hmem]
      have : port + 1 ≤ q := by
        rcases Nat.eq_or_lt_of_le hq with rfl | h
        · exact absurd hmem hqn
        · omega
      exact ih q this hqn
  | case2 port hmem =>
      intro q hq _
      rwa [find_port_loop, dif_neg hmem]

/-- Orchestrator state: `BridgeServer._ports` plus, for each live
`AirPlayService` child, its name (the device UDN) and its port. -/
structure OrchState where
  ports : List Nat
  sessions : List (String × Nat)
deriving DecidableEq, Repr

/-- `BridgeServer.on_device_found`: allocates a port with `_find_port`
(which appends it to `_ports`) and registers a service named by the
UDN of the device on that port. -/
def on_device_found (o : OrchState) (udn : String) : OrchState :=
  let p := find_port o.ports
  { ports := o.ports ++ [p], sessions := o.sessions ++ [(udn, p)] }

/-- `BridgeServer.on_device_removed`: looks up the service named by the
UDN (`getServiceNamed` raises for an unknown name — modelled as
`none`), detaches it and removes its port from `_ports`. -/
def on_device_removed (o : OrchState) (udn : String) : Option OrchState :=
  match List.lookup udn o.sessions with
  | none => none
  | some p =>
      some { ports := o.ports.erase p,
             sessions := o.sessions.eraseP (fun e => e.1 == udn) }

/-- Discovery events delivered to the orchestrator. -/
inductive OrchEvent where
  | found (udn : String)
  | removed (udn : String)
deriving DecidableEq, Repr

/-- One discovery event applied to the orchestrator state. -/
def orch_step (o : OrchState) : OrchEvent → Option OrchState
  | .found udn => some (on_device_found o udn)
  | .removed udn => on_device_removed o udn

/-- A sequence of discovery events applied from a given state;
`none` as soon as a removal names an unknown device. -/
def orch_run_from (o : OrchState) : List OrchEvent → Option OrchState
  | [] => some o
  | e :: es =>
      match orch_step o e with
      | none => none
      | some o1 => orch_run_from o1 es

/-- A sequence of discovery events applied from the initial state
(empty pool, no sessions). -/
def orch_run (evs : List OrchEvent) : Option OrchState :=
  orch_run_from { ports := [], sessions := [] } evs

/-- Pool invariant: the pool has no duplicates, the live session
ports are pairwise distinct, and the port of every live session is in
the pool. -/
def OrchInv (o : OrchState) : Prop :=
  o.ports.Nodup ∧ (o.sessions.map Prod.snd).Nodup ∧
    ∀ e ∈ o.sessions, e.2 ∈ o.ports

theorem lookup_mem_snd :
    ∀ (l : List (String × Nat)) (udn : String) (p : Nat),
      List.lookup udn l = some p → p ∈ l.map Prod.snd := by
  intro l udn p
  induction l with
  | nil => intro h; cases h
  | cons a l ih =>
      intro h
      rw [List.lookup] at h
      by_cases he : udn = a.1
      · have hb : (udn == a.1) = true := beq_iff_eq.mpr he
        rw [hb] at h
        simp only [Option.some.injEq] at h
        subst h
        exact List.mem_map.mpr ⟨a, List.mem_cons_self a l, rfl⟩
      · have hb : (udn == a.1) = false := beq_eq_false_iff_ne.mpr he
        rw [hb] at h
        rw [List.map_cons]
        exact List.mem_cons_of_mem _ (ih h)

/-- After removing (the first session of) a device whose lookup gave
port `p`, no surviving session still holds `p`, provided session ports
were pairwise distinct. -/
theorem eraseP_snd_ne :
    ∀ (l : List (String × Nat)) (udn : String) (p : Nat),
      (l.map Prod.snd).Nodup → List.lookup udn l = some p →
      ∀ e ∈ l.eraseP (fun x => x.1 == udn), e.2 ≠ p := by
  intro l udn p
  induction l with
  | nil => intro _ h; cases h
  | cons a l ih =>
      intro hnd h e he
      rw [List.lookup] at h
      rw [List.map_cons, List.nodup_cons] at hnd
      by_cases hk : udn = a.1
      · have hb : (udn == a.1) = true := beq_iff_eq.mpr hk
        have hb' : (a.1 == udn) = true := beq_iff_eq.mpr hk.symm
        rw [hb] at h
        simp only [Option.some.injEq] at h
        subst h
        rw [List.eraseP_cons, hb'] at he
        simp only [cond_true] at he
        intro hep
        exact hnd.1 (hep ▸ List.mem_map.mpr ⟨e, he, rfl⟩)
      · have hb : (udn == a.1) = false := beq_eq_false_iff_ne.mpr hk
        have hb' : (a.1 == udn) = false :=
          beq_eq_false_iff_ne.mpr (fun hc => hk hc.symm)
        rw [hb] at h
        rw [List.eraseP_cons, hb'] at he
        simp only [cond_false] at he
        rcases List.mem_cons.mp he with rfl | he'
        · intro hep
          exact hnd.1 (hep ▸ lookup_mem_snd l udn p h)
        · exact ih hnd.2 h e he'

theorem orch_inv_found (o : OrchState) (udn : String) (h : OrchInv o) :
    OrchInv (on_device_found o udn) := by
  obtain ⟨h1, h2, h3⟩ := h
  have hfp : find_port o.ports ∉ o.ports := find_port_loop_not_mem o.ports 22555
  unfold on_device_found OrchInv
  refine ⟨?_, ?_, ?_⟩
  · rw [List.nodup_append]
    exact ⟨h1, List.nodup_singleton _,
      fun a ha hb => (List.mem_singleton.mp hb ▸ hfp) ha⟩
  · rw [List.map_append, List.nodup_append]
    refine ⟨h2, List.nodup_singleton _, fun a ha hb => ?_⟩
    rcases List.mem_map.mp ha with ⟨e, he, rfl⟩
    have hmem : e.2 ∈ o.ports := h3 e he
    simp only [List.map_cons, List.map_nil, List.mem_singleton] at hb
    exact hfp (hb ▸ hmem)
  · intro e he
    rcases List.mem_append.mp he with he' | he'
    · exact List.mem_append.mpr (Or.inl (h3 e he'))
    · simp only [List.mem_singleton] at he'
      subst he'
      exact List.mem_append.mpr (Or.inr (List.mem_singleton.mpr rfl))

theorem orch_inv_removed (o o' : OrchState) (udn : String)
    (h : OrchInv o) (hr : on_device_removed o udn = some o') : OrchInv o' := by
  obtain ⟨h1, h2, h3⟩ := h
  unfold on_device_removed at hr
  cases hl : List.lookup udn o.sessions with
  | none => rw [hl] at hr; cases hr
  | some p =>
      rw [hl] at hr
      simp only [Option.some.injEq] at hr
      subst hr
      have hsub : List.Sublist (o.sessions.eraseP (fun e => e.1 == udn)) o.sessions :=
        List.eraseP_sublist _
      refine ⟨h1.erase p, ?_, ?_⟩
      · exact (hsub.map Prod.snd).nodup h2
      · intro e he
        have hmem : e ∈ o.sessions := hsub.mem he
        have hne : e.2 ≠ p := eraseP_snd_ne o.sessions udn p h2 hl e he
        exact (List.Nodup.mem_erase_iff h1).mpr ⟨hne, h3 e hmem⟩

theorem orch_inv_step (o o' : OrchState) (e : OrchEvent)
    (h : OrchInv o) (hs : orch_step o e = some o') : OrchInv o' := by
  cases e with
  | found udn =>
      simp only [orch_step, Option.some.injEq] at hs
      exact hs ▸ orch_inv_found o udn h
  | removed udn =>
      exact orch_inv_removed o o' udn h hs

theorem orch_inv_run_from (evs : List OrchEvent) :
    ∀ (o o' : OrchState), OrchInv o → orch_run_from o evs = some o' → OrchInv o' := by
  induction evs with
  | nil =>
      intro o o' h hr
      simp only [orch_run_from, Option.some.injEq] at hr
      exact hr ▸ h
  | cons e es ih =>
      intro o o' h hr
      rw [orch_run_from] at hr
      cases hs : orch_step o e with
      | none => rw [hs] at hr; cases hr
      | some o1 =>
          rw [hs] at hr
          exact ih o1 o' (orch_inv_step o o1 e h hs) hr

/-! Bind/unbind sequences against one session.  A busy `ValueError`
propagates to the endpoint layer (503) and leaves the session state
unchanged, so a sequence step keeps the previous state on error. -/

/-- One (attempted) assignment to the `client` property: on the busy
`ValueError` the state is unchanged (the raise precedes any
mutation). -/
def applyBind (s : AVState) (v : Option Client) : AVState :=
  match set_client s v with
  | .ok s1 => s1
  | .error _ => s

/-- A sequence of bind/unbind attempts applied in order. -/
def runBinds (s : AVState) : List (Option Client) → AVState
  | [] => s
  | v :: vs => runBinds (applyBind s v) vs

/-- Invariant of the bind/unbind machine that the code actually
maintains: whenever a client is bound, the instance id is the allocated
token "0". -/
def BindInv (s : AVState) : Prop :=
  s.client.isSome → s.instance_id = some "0"

theorem set_client_none (s : AVState) :
    set_client s none = .ok { s with client := none } := by
  unfold set_client
  cases s.client <;> rfl

theorem set_client_fresh (s : AVState) (c : Client) (h : s.client = none) :
    set_client s (some c) =
      .ok { s with client := some c, instance_id := some "0" } := by
  simp [set_client, h, allocate_instance_id]

theorem set_client_same_host (s : AVState) (c c0 : Client)
    (h : s.client = some c0) (hh : c.host = c0.host) :
    set_client s (some c) =
      .ok { s with client := some c, instance_id := some "0" } := by
  simp [set_client, h, hh, allocate_instance_id]

theorem set_client_busy (s : AVState) (c c0 : Client)
    (h : s.client = some c0) (hh : c.host ≠ c0.host) :
    set_client s (some c) = .error (.valueError "Device is busy") := by
  simp [set_client, h, hh]

theorem applyBind_inv (s : AVState) (v : Option Client) (h : BindInv s) :
    BindInv (applyBind s v) := by
  cases v with
  | none =>
      unfold applyBind
      rw [set_client_none s]
      intro hc
      simp at hc
  | some c =>
      cases hc0 : s.client with
      | none =>
          unfold applyBind
          rw [set_client_fresh s c hc0]
          intro _
          rfl
      | some c0 =>
          by_cases hh : c.host = c0.host
          · unfold applyBind
            rw [set_client_same_host s c c0 hc0 hh]
            intro _
            rfl
          · unfold applyBind
            rw [set_client_busy s c c0 hc0 hh]
            exact h

theorem runBinds_inv (ops : List (Option Client)) :
    ∀ s : AVState, BindInv s → BindInv (runBinds s ops) := by
  induction ops with
  | nil => exact fun s h => h
  | cons v vs ih => exact fun s h => ih _ (applyBind_inv s v h)

theorem orch_inv_init : OrchInv { ports := [], sessions := [] } := by
  refine ⟨List.nodup_nil, ?_, ?_⟩ <;> simp

theorem orch_inv_run (evs : List OrchEvent) (o : OrchState)
    (h : orch_run evs = some o) : OrchInv o :=
  orch_inv_run_from evs _ o orch_inv_init h

/-- When every `Stop` attempt either succeeds or faults with code 718,
`_try_stop` never raises: it returns `True` or `False`. -/
theorem try_stop_all718_ok (beh : Nat → StopOutcome) (iid : Option String)
    (retries : Nat) :
    ∀ attempt, (∀ n, beh n = .ok ∨ beh n = .fault "718") →
      ∃ b cs, try_stop beh iid attempt retries = .ok (b, cs) := by
  induction retries with
  | zero =>
      intro attempt h
      rcases h attempt with hk | hk <;> simp [try_stop, hk]
  | succ r ih =>
      intro attempt h
      rcases h attempt with hk | hk
      · simp [try_stop, hk]
      · obtain ⟨b, cs, hbc⟩ := ih (attempt + 1) h
        simp [try_stop, hk, hbc]

/-- Whenever `_try_stop(1)` returns (rather than raising), `stop` on a
loaded session performs the full cleanup: `_uri` cleared, photo
unpublished and cleared, client unbound (the instance id is retained);
the unpublish call is appended to the `Stop` trace. -/
theorem stop_cleanup (d : Device) (s : AVState) (u : String) (hu : s.uri = some u)
    (b : Bool) (cs0 : List RemoteCall)
    (ht : try_stop d.stopOutcome s.instance_id 0 1 = .ok (b, cs0)) :
    stop d s = .ok ({ s with uri := none, photo := none, client := none },
      cs0 ++ (match s.photo with
              | some name => [RemoteCall.unpublish name]
              | none => [])) := by
  obtain ⟨uri, pre, pct, cl, iid, ph⟩ := s
  simp only at hu ht
  subst hu
  cases ph <;> simp [stop, ht, set_client_none]

/-! Concrete fixtures used by counterexamples and witnesses. -/

/-- A caller client at host 10.0.0.1, source port 5000. -/
def clientA : Client := { host := "10.0.0.1", port := 5000 }

/-- A different client identity at the same host as `clientA`
(different source port). -/
def clientB : Client := { host := "10.0.0.1", port := 6000 }

/-- A client at a different host than `clientA`. -/
def clientC : Client := { host := "10.0.0.2", port := 5000 }

/-- A device that reports a 100 s track at position 10 s, currently
playing, whose `Stop` action always succeeds. -/
def devPlaying : Device :=
  { trackDuration := 100, relTime := 10, transportState := "PLAYING",
    stopOutcome := fun _ => .ok }

/-- A device whose `Stop` action always faults with code 500. -/
def devFault500 : Device :=
  { trackDuration := 100, relTime := 10, transportState := "STOPPED",
    stopOutcome := fun _ => .fault "500" }

/-- A `Stop` behaviour that faults with code 718 on the first two
attempts and succeeds from the third attempt on. -/
def beh718twice : Nat → StopOutcome := fun n => if n < 2 then .fault "718" else .ok

/-- A device with `beh718twice` as its `Stop` behaviour. -/
def dev718twice : Device :=
  { trackDuration := 100, relTime := 10, transportState := "STOPPED",
    stopOutcome := beh718twice }

/-- A session bound to `clientA` with no media loaded. -/
def boundA : AVState :=
  { initState with client := some clientA, instance_id := some "0" }

/-- A session bound to `clientA` with media loaded and a published
photo. -/
def sessionLoaded : AVState :=
  { uri := some "http://media/video.mp4", pre_scrub := none,
    position_pct := none, client := some clientA, instance_id := some "0",
    photo := some "photo.jpg" }

/-- A bound session with media loaded and a pending fractional scrub of
one half. -/
def sHalfLoaded : AVState :=
  { uri := some "http://media/video.mp4", pre_scrub := none,
    position_pct := some (1/2), client := some clientA,
    instance_id := some "0", photo := none }

/-- A bound session with no media and a saved precise scrub position of
30 s (the state `set_scrub 30` produces before `play`). -/
def sPre30 : AVState :=
  { initState with client := some clientA, instance_id := some "0",
                   pre_scrub := some 30 }

/-- `sPre30` with, in addition, a stale pending percentage left over
from an earlier `play` (reachable: `play` stores the percentage, `stop`
does not clear it, `set_scrub` before the next `play` sets
`_pre_scrub`). -/
def sStale : AVState := { sPre30 with position_pct := some (9/10) }

/-! Claim theorems. -/

/-- C1, counterexample: the claim says `stop` returns the session to
Idle for every possible fault code of the remote `Stop` action.  On a
session with media loaded whose `Stop` faults with code 500, `stop`
instead re-raises the fault: it returns the error (no cleanup happens,
no Idle state is produced), so the claim is false for fault code
500. -/
theorem C1_counterexample :
    stop devFault500 sessionLoaded = .error (.commandError "500") ∧
    sessionLoaded.uri = some "http://media/video.mp4" := by
  constructor
  · simp [stop, try_stop, devFault500, sessionLoaded]
  · rfl

/-- C1, amended: for every session with media loaded, `stop` returns
the session to Idle — `mediaUri` cleared, any published image asset
unpublished and `publishedAssetName` cleared, the client unbound —
whenever every `Stop` attempt either succeeds or faults with code 718
(including the case in which the retry budget is exhausted); a fault
with any other code on the first attempt propagates out of `stop`
as that fault, before any cleanup. -/
theorem C1_stop_idle (d : Device) (s : AVState) (u : String)
    (hu : s.uri = some u) :
    ((∀ n, d.stopOutcome n = .ok ∨ d.stopOutcome n = .fault "718") →
      ∃ cs, stop d s = .ok ({ s with uri := none, photo := none, client := none }, cs) ∧
        ∀ name, s.photo = some name → RemoteCall.unpublish name ∈ cs) ∧
    (∀ code, code ≠ "718" → d.stopOutcome 0 = .fault code →
      stop d s = .error (.commandError code)) := by
  constructor
  · intro hbeh
    obtain ⟨b, cs0, ht⟩ := try_stop_all718_ok d.stopOutcome s.instance_id 1 0 hbeh
    refine ⟨cs0 ++ (match s.photo with
                    | some name => [RemoteCall.unpublish name]
                    | none => []), stop_cleanup d s u hu b cs0 ht, ?_⟩
    intro name hname
    rw [hname]
    exact List.mem_append.mpr (Or.inr (List.mem_singleton.mpr rfl))
  · intro code hc h0
    obtain ⟨uri, pre, pct, cl, iid, ph⟩ := s
    simp only at hu h0
    subst hu
    simp [stop, try_stop, h0, hc]

/-- C1, witness for the amended theorem: on `sessionLoaded` with a
device whose `Stop` always succeeds, `stop` clears the media URI,
unpublishes the photo and unbinds the client. -/
theorem C1_witness :
    ∃ cs, stop devPlaying sessionLoaded =
      .ok ({ sessionLoaded with uri := none, photo := none, client := none }, cs) ∧
      ∀ name, sessionLoaded.photo = some name → RemoteCall.unpublish name ∈ cs :=
  (C1_stop_idle devPlaying sessionLoaded "http://media/video.mp4" rfl).1
    (fun _ => Or.inl rfl)

/-- C2, counterexample: the claimed invariant is that `instanceId` is
non-empty iff `boundClient` is non-empty after each operation, and that
an unbind clears the token.  After the sequence bind-then-unbind from
the initial state, the client is empty but the instance id is still the
token "0": `_release_instance_id` only notifies, it never clears the
field. -/
theorem C2_counterexample :
    (runBinds initState [some clientA, none]).client = none ∧
    (runBinds initState [some clientA, none]).instance_id = some "0" := by
  constructor <;> rfl

/-- C2, amended: for every sequence of bind/unbind operations starting
from the initial state, after each operation `instanceId` is non-empty
(equal to the allocated token "0") whenever `boundClient` is non-empty;
an unbind (client set to empty) performs only a best-effort release
notification and leaves the stored `instanceId` unchanged, so the
reverse direction does not hold once any bind has occurred. -/
theorem C2_bind_unbind_invariant (ops : List (Option Client)) :
    BindInv (runBinds initState ops) ∧
    (∀ s : AVState, set_client s none = .ok { s with client := none }) := by
  constructor
  · refine runBinds_inv ops initState ?_
    intro h
    simp [initState] at h
  · exact set_client_none

/-- C2, witness: after the concrete sequence bind, unbind, bind, the
bound client is non-empty and the invariant instance gives
`instanceId = "0"`. -/
theorem C2_witness :
    (runBinds initState [some clientA, none, some clientA]).instance_id = some "0" :=
  (C2_bind_unbind_invariant [some clientA, none, some clientA]).1 rfl

/-- C3, counterexample: the claim says binding any candidate client
different from the bound client fails busy.  `clientB` differs from
`clientA` (different source port) but has the same host, and binding it
on a session bound to `clientA` succeeds, rebinding and re-allocating
the token. -/
theorem C3_counterexample :
    clientB ≠ clientA ∧
    set_client boundA (some clientB) =
      .ok { boundA with client := some clientB, instance_id := some "0" } := by
  constructor
  · intro h
    have := congrArg Client.port h
    simp [clientA, clientB] at this
  · exact set_client_same_host boundA clientB clientA rfl rfl

/-- C3, amended: for every session bound to client `c` and every
candidate `c2` whose host differs from the host of `c`, the bind fails
with the busy `ValueError` — which the endpoint layer maps to a 503
response with the dispatch never invoked — and the session state is
unchanged (the render result returns the original state `s`
untouched, so `boundClient`, `instanceId`, `mediaUri`, the pending
seek fields and `publishedAssetName` are all as before). -/
theorem C3_busy_rejection (s : AVState) (c c2 : Client)
    (hb : s.client = some c) (hh : c2.host ≠ c.host)
    (dispatch : AVState → Except PyErr (AVState × String)) :
    set_client s (some c2) = .error (.valueError "Device is busy") ∧
    render s c2 dispatch = (s, 503, "") := by
  have h1 := set_client_busy s c2 c hb hh
  refine ⟨h1, ?_⟩
  unfold render
  rw [h1]

/-- C3, witness: on `boundA`, a bind attempt by `clientC` (different
host) is rejected busy and rendered as 503 with the state returned
unchanged. -/
theorem C3_witness :
    set_client boundA (some clientC) = .error (.valueError "Device is busy") ∧
    render boundA clientC (fun st => .ok (st, "OK")) = (boundA, 503, "") := by
  refine C3_busy_rejection boundA clientA clientC rfl ?_ _
  intro h
  simp [clientA, clientC] at h

/-- C4, counterexample: the claim says a session whose `Stop` faults
with 718 twice and then succeeds on the third attempt completes within
the retry budget.  With `stop` calling `_try_stop(1)`, the budget
allows only two attempts in total: with behaviour `beh718twice`
(faults on attempts 0 and 1, would succeed on attempt 2) the call
returns `False` after exactly two `Stop` calls — the third, successful
attempt is never made. -/
theorem C4_counterexample :
    beh718twice 0 = .fault "718" ∧ beh718twice 1 = .fault "718" ∧
    beh718twice 2 = .ok ∧
    try_stop beh718twice (some "0") 0 1 =
      .ok (false, [RemoteCall.stop (some "0"), RemoteCall.stop (some "0")]) := by
  refine ⟨rfl, rfl, rfl, ?_⟩
  simp [try_stop, beh718twice]

/-- C4, amended: the retry budget is one retry (two attempts in
total).  A 718 fault on the first attempt followed by success on the
second completes within the budget without surfacing an error; two 718
faults exhaust the budget, the failure is swallowed (`False` is
returned and the cleanup of `stop` still proceeds); a fault with any
code other than 718 on the first attempt is not retried and propagates
to the caller of `stop`. -/
theorem C4_retry_budget (beh : Nat → StopOutcome) (iid : Option String)
    (d : Device) (s : AVState) (u : String) :
    (beh 0 = .fault "718" → beh 1 = .ok →
      try_stop beh iid 0 1 =
        .ok (true, [RemoteCall.stop iid, RemoteCall.stop iid])) ∧
    (beh 0 = .fault "718" → beh 1 = .fault "718" →
      try_stop beh iid 0 1 =
        .ok (false, [RemoteCall.stop iid, RemoteCall.stop iid])) ∧
    (s.uri = some u →
      d.stopOutcome 0 = .fault "718" → d.stopOutcome 1 = .fault "718" →
      ∃ cs, stop d s =
        .ok ({ s with uri := none, photo := none, client := none }, cs)) ∧
    (∀ code, code ≠ "718" → beh 0 = .fault code →
      try_stop beh iid 0 1 = .error (.commandError code)) := by
  refine ⟨?_, ?_, ?_, ?_⟩
  · intro h0 h1
    simp [try_stop, h0, h1]
  · intro h0 h1
    simp [try_stop, h0, h1]
  · intro hu h0 h1
    have ht : try_stop d.stopOutcome s.instance_id 0 1 =
        .ok (false, [RemoteCall.stop s.instance_id, RemoteCall.stop s.instance_id]) := by
      simp [try_stop, h0, h1]
    exact ⟨_, stop_cleanup d s u hu false _ ht⟩
  · intro code hc h0
    simp [try_stop, h0, hc]

/-- C4, witness: a device faulting 718 once then succeeding completes
within the budget with two `Stop` calls and result `True`. -/
theorem C4_witness :
    try_stop (fun n => if n = 0 then .fault "718" else .ok) (some "0") 0 1 =
      .ok (true, [RemoteCall.stop (some "0"), RemoteCall.stop (some "0")]) :=
  (C4_retry_budget (fun n => if n = 0 then .fault "718" else .ok) (some "0")
    devPlaying sessionLoaded "http://media/video.mp4").1 rfl rfl

/-- C5, counterexample: the claim says `getScrub` on a no-media session
performs no remote call.  On the fresh session it returns (0, 0) but
the call trace contains the unconditional `GetPositionInfo`
invocation, made before the media check. -/
theorem C5_counterexample :
    get_scrub devPlaying initState =
      .ok ((0, 0), initState, [RemoteCall.getPositionInfo none]) ∧
    [RemoteCall.getPositionInfo none] ≠ ([] : List RemoteCall) := by
  constructor
  · rfl
  · simp

/-- C5, amended: for every session with no media loaded, `getScrub`
returns the pair (0.0, 0.0) and leaves the state unchanged, but it
does issue exactly one remote call — the `GetPositionInfo` invocation
that the code performs before checking whether media is loaded. -/
theorem C5_no_media_scrub (d : Device) (s : AVState) (h : s.uri = none) :
    get_scrub d s = .ok ((0, 0), s, [RemoteCall.getPositionInfo s.instance_id]) := by
  obtain ⟨uri, pre, pct, cl, iid, ph⟩ := s
  simp only at h
  subst h
  simp [get_scrub]

/-- C5, witness: a fresh bound session with no media returns (0, 0)
from `getScrub` with the single `GetPositionInfo` call. -/
theorem C5_witness :
    get_scrub devPlaying boundA =
      .ok ((0, 0), boundA, [RemoteCall.getPositionInfo (some "0")]) :=
  C5_no_media_scrub devPlaying boundA rfl

/-- C6, counterexample: the claim says `play` clears any previously
pending percentage and that exactly one pending-seek form is active
after the call.  From `sPre30` (saved precise scrub 30 s, no pending
percentage — the state of the specification scenario `setScrub(30)`
before `play`), after `play` both pending forms are empty, so not
exactly one is active; and from `sStale` (a stale pending percentage
alongside the saved precise scrub), after `play` the stale percentage
9/10 is still pending — it was not cleared. -/
theorem C6_counterexample :
    ((play sPre30 "http://media/a.mp4" (1/2)).1.pre_scrub = none ∧
     (play sPre30 "http://media/a.mp4" (1/2)).1.position_pct = none) ∧
    (play sStale "http://media/b.mp4" (1/2)).1.position_pct = some (9/10) := by
  refine ⟨⟨rfl, rfl⟩, rfl⟩

/-- C6, amended: `play(locationUri, startPositionFraction)` sets the
media URI and issues play at normal speed; after the media-URI set, if
`pendingPreciseScrub` is set it is replayed via a `Seek` and cleared,
and a previously pending percentage is left unchanged; otherwise
`startPositionFraction` is stored as `pendingScrubFraction`,
overwriting any previously pending percentage.  After the call
`pendingPreciseScrub` is always clear, so at most the percentage form
of pending seek remains active. -/
theorem C6_play_pending_seek (s : AVState) (loc : String) (pos : ℚ) :
    (play s loc pos).1.uri = some loc ∧
    (play s loc pos).1.pre_scrub = none ∧
    (s.pre_scrub = none →
      (play s loc pos).1.position_pct = some pos ∧
      (play s loc pos).2 =
        [RemoteCall.setAVTransportURI s.instance_id loc,
         RemoteCall.play s.instance_id "1"]) ∧
    (∀ p, s.pre_scrub = some p →
      (play s loc pos).1.position_pct = s.position_pct ∧
      (play s loc pos).2 =
        [RemoteCall.setAVTransportURI s.instance_id loc,
         RemoteCall.play s.instance_id "1",
         RemoteCall.seek s.instance_id p]) := by
  obtain ⟨uri, pre, pct, cl, iid, ph⟩ := s
  cases pre <;> simp [play, set_scrub]

/-- C6, witness: from `sPre30`, `play` seeks to the saved 30 s
immediately after load and applies no percentage (the pending
percentage stays empty). -/
theorem C6_witness :
    (play sPre30 "http://media/a.mp4" (1/2)).1.uri = some "http://media/a.mp4" ∧
    (play sPre30 "http://media/a.mp4" (1/2)).1.position_pct = sPre30.position_pct ∧
    (play sPre30 "http://media/a.mp4" (1/2)).2 =
      [RemoteCall.setAVTransportURI (some "0") "http://media/a.mp4",
       RemoteCall.play (some "0") "1",
       RemoteCall.seek (some "0") 30] := by
  have h := C6_play_pending_seek sPre30 "http://media/a.mp4" (1/2)
  exact ⟨h.1, (h.2.2.2 30 rfl).1, (h.2.2.2 30 rfl).2⟩

/-- C7, confirmed: with media loaded, a pending fraction `pct` and a
known (positive) duration, `_try_seek_pct` computes the target offset
`duration * pct`, clears the fraction immediately, and issues a `Seek`
iff the target is strictly greater than the observed position; on the
resulting state a further `getScrub` issues no `Seek` (the fraction
was consumed). -/
theorem C7_seek_resolution (s : AVState) (u : String)
    (pct duration position : ℚ) (d : Device)
    (hu : s.uri = some u) (hp : s.position_pct = some pct)
    (hd : 0 < duration) :
    try_seek_pct s duration position =
      .ok ({ s with position_pct := none },
        if position < duration * pct
        then [RemoteCall.seek s.instance_id (duration * pct)]
        else []) ∧
    get_scrub d { s with position_pct := none } =
      .ok ((d.trackDuration, d.relTime), { s with position_pct := none },
        [RemoteCall.getPositionInfo s.instance_id]) := by
  obtain ⟨uri, pre, pct0, cl, iid, ph⟩ := s
  simp only at hu hp
  subst hu
  subst hp
  constructor
  · by_cases hcmp : position < duration * pct <;>
      simp [try_seek_pct, set_scrub, hd, hcmp]
  · simp [get_scrub]

/-- C7, witness: the specification scenario — `play(uri, 0.5)` then a
duration query of 100 s at position 0 resolves a seek to exactly 50 s
and consumes the fraction; a second `getScrub` on the result does not
re-seek. -/
theorem C7_witness :
    try_seek_pct sHalfLoaded 100 0 =
      .ok ({ sHalfLoaded with position_pct := none },
        [RemoteCall.seek (some "0") 50]) ∧
    get_scrub devPlaying { sHalfLoaded with position_pct := none } =
      .ok ((100, 10), { sHalfLoaded with position_pct := none },
        [RemoteCall.getPositionInfo (some "0")]) := by
  have h := C7_seek_resolution sHalfLoaded "http://media/video.mp4" (1/2)
    100 0 devPlaying rfl rfl (by norm_num)
  constructor
  · rw [h.1]
    norm_num [sHalfLoaded]
  · exact h.2

/-- C8, claim is right and the code is wrong: on a session with media
loaded, a pending fractional scrub of 1/2 and a device reporting a
positive duration (100 s), `rate(1)` raises a `TypeError` instead of
completing: `get_scrub` already consumes the fraction (issuing the
single seek), and `rate` then calls `_try_seek_pct` again, which — with
`duration > 0` — interpolates `self._position_pct` (now `None`) with
`%f` and multiplies it by the duration. -/
theorem C8_rate_type_error :
    sHalfLoaded.uri.isSome = true ∧
    sHalfLoaded.position_pct = some (1/2) ∧
    (0 : ℚ) < devPlaying.trackDuration ∧
    rate devPlaying sHalfLoaded 1 = .error .typeError := by
  refine ⟨rfl, rfl, by norm_num [devPlaying], ?_⟩
  norm_num [rate, get_scrub, try_seek_pct, set_scrub, pytrunc,
    devPlaying, sHalfLoaded, initState]

/-- C9, confirmed: after any sequence of device-found/device-lost
events (starting empty, removals naming only known devices), the port
the allocator would return is at least the base 22555, is not in the
pool, is the smallest such port, and differs from the port of every
live session; and after the concrete sequence found A, found B,
lost A, the pool holds only 22556 and the next allocation returns
22555 — the port A held, now reusable. -/
theorem C9_port_allocation :
    (∀ (evs : List OrchEvent) (o : OrchState), orch_run evs = some o →
      22555 ≤ find_port o.ports ∧
      find_port o.ports ∉ o.ports ∧
      (∀ e ∈ o.sessions, e.2 ≠ find_port o.ports) ∧
      (∀ q, 22555 ≤ q → q ∉ o.ports → find_port o.ports ≤ q)) ∧
    (orch_run [.found "A", .found "B", .removed "A"] =
       some { ports := [22556], sessions := [("B", 22556)] } ∧
     find_port [22556] = 22555) := by
  constructor
  · intro evs o hrun
    obtain ⟨h1, h2, h3⟩ := orch_inv_run evs o hrun
    have hnm : find_port o.ports ∉ o.ports := find_port_loop_not_mem o.ports 22555
    refine ⟨find_port_loop_ge o.ports 22555, hnm, ?_, find_port_loop_le o.ports 22555⟩
    intro e he hep
    exact hnm (hep ▸ h3 e he)
  · have e1 : find_port ([] : List Nat) = 22555 := by
      rw [find_port, find_port_loop]
      simp
    have e2 : find_port [22555] = 22556 := by
      rw [find_port, find_port_loop]
      simp only [List.mem_singleton, if_pos rfl, reduceDIte]
      rw [find_port_loop]
      simp
    have e3 : find_port [22556] = 22555 := by
      rw [find_port, find_port_loop]
      simp
    refine ⟨?_, e3⟩
    simp [orch_run, orch_run_from, orch_step, on_device_found,
      on_device_removed, e1, e2, List.lookup, List.eraseP, List.erase]

/-- C9, witness: applied to the empty event sequence, the first
allocation from the empty pool is at least the base port. -/
theorem C9_witness :
    22555 ≤ find_port (OrchState.mk [] []).ports :=
  (C9_port_allocation.1 [] (OrchState.mk [] []) rfl).1

/-- C10, confirmed: the exclusivity check compares only the host
component — on a session bound to client `c`, any candidate `c2` with
the same host rebinds successfully (re-allocating the instance token
"0"), even if other identity components differ; the busy rejection is
raised exactly when the hosts differ. -/
theorem C10_host_only_exclusivity (s : AVState) (c c2 : Client)
    (hb : s.client = some c) :
    (c2.host = c.host →
      set_client s (some c2) =
        .ok { s with client := some c2, instance_id := some "0" }) ∧
    (c2.host ≠ c.host →
      set_client s (some c2) = .error (.valueError "Device is busy")) :=
  ⟨fun hh => set_client_same_host s c2 c hb hh,
   fun hh => set_client_busy s c2 c hb hh⟩

/-- C10, witness: `clientB` (same host as `clientA`, different port)
successfully rebinds the session bound to `clientA`. -/
theorem C10_witness :
    set_client boundA (some clientB) =
      .ok { boundA with client := some clientB, instance_id := some "0" } :=
  (C10_host_only_exclusivity boundA clientA clientB rfl).1 rfl

end Airpnp
